import Mathlib

/-!
Verification of the adverbs library (RAII wrappers over the InfiniBand verbs
API): `scoped_device_list` (device enumeration), `context_handle` (open device
context with device/port attribute queries), and the `IBDeviceProxy` binding
type (retained device identity, re-resolved by kernel index).

The external verbs primitives (`ibv_get_device_list`, `ibv_open_device`,
`ibv_query_device`, `ibv_query_port`, `ibv_get_device_index`) are external
collaborators; they are modelled by explicit environments (`VerbsEnv`,
`ContextEnv`) recording the outcome each primitive would report.  A `none`
outcome models the primitive's documented error indicator (NULL return or
nonzero status).  `std::shared_ptr` reference counting, which both wrapper
classes delegate their teardown to, is modelled by an explicit trace semantics
(`owner_op`, `run_count`, `close_count`) over copy/destroy/query events.
-/

/-- Bound used by `strncmp` in `lookup_by_name`; `IBV_SYSFS_NAME_MAX` is 64 in
`<infiniband/verbs.h>`. -/
def IBV_SYSFS_NAME_MAX : Nat := 64

/-- One raw `struct ibv_device` entry as produced by the enumeration primitive.
`kernel_index` models the outcome of the external `ibv_get_device_index`
resolution for this entry: `none` when the feature is unsupported (netlink
query unavailable), in which case the real primitive reports `-1`. -/
structure ibv_device where
  name : List Char
  kernel_index : Option Int
  guid : Nat
  node_type : Nat
deriving DecidableEq, Repr

/-- External primitive `ibv_get_device_index`: returns the kernel device index,
or `-1` when the resolution feature is unsupported for the device (its
documented contract). -/
def ibv_get_device_index (dev : ibv_device) : Int :=
  match dev.kernel_index with
  | some i => i
  | none => -1

/-- An opaque open-device resource (`struct ibv_context`), tagged with the
device the kernel opened it on. -/
structure ibv_context where
  dev : ibv_device
deriving DecidableEq, Repr

/-- Snapshot returned by `ibv_query_port` (`struct ibv_port_attr`); only the
fields the claims discriminate on are carried. -/
structure ibv_port_attr where
  link_layer : Nat
  lid : Nat
deriving DecidableEq, Repr

/-- Snapshot returned by `ibv_query_device` (`struct ibv_device_attr`);
`phys_port_cnt` is the field `query_ports` uses to bound the per-port loop. -/
structure ibv_device_attr where
  phys_port_cnt : Nat
  max_mr_size : Nat
deriving DecidableEq, Repr

/-- Distinguishable failures thrown by the library: the two
`std::runtime_error` messages in adverbs.h and the not-found error thrown by
`IBDeviceProxy::open`. -/
inductive adverbs_error where
  | query_device_failed
  | query_port_failed
  | not_found
deriving DecidableEq, Repr

/-- Environment for the enumeration/open primitives.  `get_device_list = none`
models `ibv_get_device_list` returning NULL (failure); `open_device dev = none`
models `ibv_open_device` returning NULL for that device. -/
structure VerbsEnv where
  get_device_list : Option (List ibv_device)
  open_device : ibv_device → Option ibv_context

/-- Environment for the query primitives against one open context.
`query_device = none` models `ibv_query_device` returning nonzero;
`query_port p = none` models `ibv_query_port` on (1-based) port `p` returning
nonzero. -/
structure ContextEnv where
  query_device : Option ibv_device_attr
  query_port : Nat → Option ibv_port_attr

/-- State of a `scoped_device_list` (adverbs.h): the member initializer list is
`_device_list(ibv_get_device_list(&_size), ibv_free_device_list)` over the
fields `int _size = 0;` and `std::shared_ptr<struct ibv_device *>
_device_list;`.  `_device_list = none` models the shared pointer holding the
NULL array the primitive returns on failure; in that case `_size` keeps its
initializer value 0 (rdma-core writes 0 through the out-parameter on failure). -/
structure scoped_device_list where
  _size : Nat
  _device_list : Option (List ibv_device)
deriving DecidableEq, Repr

/-- The `scoped_device_list()` constructor: invokes the enumeration primitive
once and stores its result and count. -/
def scoped_device_list.enumerate (env : VerbsEnv) : scoped_device_list :=
  match env.get_device_list with
  | none => { _size := 0, _device_list := none }
  | some l => { _size := l.length, _device_list := some l }

/-- Member `size()`: returns `_size`. -/
def scoped_device_list.size (d : scoped_device_list) : Nat :=
  d._size

/-- Member `get()`: the underlying raw device array. -/
def scoped_device_list.get (d : scoped_device_list) : Option (List ibv_device) :=
  d._device_list

/-- Iteration from `begin()` to `end()`: the pointer range `_device_list.get()`
to `_device_list.get() + _size`, i.e. the first `_size` entries of the array. -/
def scoped_device_list.toList (d : scoped_device_list) : List ibv_device :=
  (d._device_list.getD []).take d._size

/-- Member `operator[]`: `return *(_device_list.get()[i]);` with no bounds
check of any kind.  An in-range `i` reads entry `i` of the array; an
out-of-range `i` reads past the end of the array, which has no defined result
in the source and is modelled here by `none`. -/
def scoped_device_list.index (d : scoped_device_list) (i : Nat) : Option ibv_device :=
  (d._device_list.getD [])[i]?

/-- Member `lookup_by_predicate`: iterates `for (const auto dev : *this)` and
returns the first entry satisfying the predicate, or `nullptr` (here `none`). -/
def scoped_device_list.lookup_by_predicate (d : scoped_device_list)
    (p : ibv_device → Bool) : Option ibv_device :=
  d.toList.find? p

/-- The comparison `strncmp(a, b, n) == 0` on NUL-terminated strings without
embedded NULs: the two strings truncated to `n` characters are equal. -/
def strncmp_eq (a b : List Char) (n : Nat) : Bool :=
  a.take n == b.take n

/-- Member `lookup_by_name`: `lookup_by_predicate` with the predicate
`strncmp(dev->name, name, IBV_SYSFS_NAME_MAX) == 0`. -/
def scoped_device_list.lookup_by_name (d : scoped_device_list)
    (name : List Char) : Option ibv_device :=
  d.lookup_by_predicate (fun dev => strncmp_eq dev.name name IBV_SYSFS_NAME_MAX)

/-- Member `lookup_by_kernel_index`: `lookup_by_predicate` with the predicate
`ibv_get_device_index(dev) == kernel_index`, re-resolving the index through the
external primitive on every scan (not a cached field). -/
def scoped_device_list.lookup_by_kernel_index (d : scoped_device_list)
    (kernel_index : Int) : Option ibv_device :=
  d.lookup_by_predicate (fun dev => ibv_get_device_index dev == kernel_index)

/-- The compiler-generated copy of `scoped_device_list`: memberwise copy of
`_size` and of the `shared_ptr` `_device_list` (the copy aliases the same
array; the reference-count effect is modelled by the owner-trace semantics
below). -/
def scoped_device_list.copy (d : scoped_device_list) : scoped_device_list :=
  { _size := d._size, _device_list := d._device_list }

/-- State of a `context_handle` (adverbs.h): the single field
`std::shared_ptr<struct ibv_context> _context`.  `none` models the shared
pointer holding the NULL resource returned by a failed `ibv_open_device`. -/
structure context_handle where
  _context : Option ibv_context
deriving DecidableEq, Repr

/-- The `context_handle(const struct ibv_device *)` constructor:
`_context(ibv_open_device(device), ibv_close_device)`.  It stores whatever
pointer the open primitive returns, performs no check on it, and has no
error path. -/
def context_handle.construct (env : VerbsEnv) (device : ibv_device) : context_handle :=
  { _context := env.open_device device }

/-- Member `get()`: the underlying raw context pointer. -/
def context_handle.get (h : context_handle) : Option ibv_context :=
  h._context

/-- Member `query_device_attr`: one call to `ibv_query_device`; throws
`std::runtime_error("ibv_query_device failed")` on a nonzero return, otherwise
returns the attribute snapshot. -/
def context_handle.query_device_attr (env : ContextEnv) :
    Except adverbs_error ibv_device_attr :=
  match env.query_device with
  | none => Except.error adverbs_error.query_device_failed
  | some attr => Except.ok attr

/-- The loop `for (int i = 0; i < attr.phys_port_cnt; ++i)` of `query_ports`,
querying port `i + 1` at each step: `query_ports_from env port k` performs the
remaining `k` queries starting at port number `port`, aborting with
`std::runtime_error("ibv_query_port failed")` at the first failing port. -/
def query_ports_from (env : ContextEnv) :
    Nat → Nat → Except adverbs_error (List ibv_port_attr)
  | _, 0 => Except.ok []
  | port, k + 1 =>
    match env.query_port port with
    | none => Except.error adverbs_error.query_port_failed
    | some p =>
      match query_ports_from env (port + 1) k with
      | Except.error e => Except.error e
      | Except.ok rest => Except.ok (p :: rest)

/-- Member `query_ports()` (identical in the `context_handle` and the earlier
`device_handle` variant): calls `query_device_attr()` for `phys_port_cnt`,
then queries ports `1..phys_port_cnt` in ascending order, all-or-nothing. -/
def context_handle.query_ports (env : ContextEnv) :
    Except adverbs_error (List ibv_port_attr) :=
  match context_handle.query_device_attr env with
  | Except.error e => Except.error e
  | Except.ok attr => query_ports_from env 1 attr.phys_port_cnt

/-- Member `query_ports(filter)` of `context_handle` (adverbs.h): calls
`query_ports()` then `ports.erase(std::remove_if(ports.begin(), ports.end(),
filter), ports.end())`.  `remove_if` removes the elements for which `filter`
returns true, so the entries KEPT are those with `filter(port) == false`, in
their original order. -/
def context_handle.query_ports_filtered (env : ContextEnv)
    (filter : ibv_port_attr → Bool) : Except adverbs_error (List ibv_port_attr) :=
  match context_handle.query_ports env with
  | Except.error e => Except.error e
  | Except.ok ports => Except.ok (ports.filter (fun p => ! filter p))

/-- Member `query_ports(filter)` of the earlier `device_handle` variant: the
`remove_if` predicate is `[&filter](const auto &port) { return !filter(port); }`,
so the entries kept are those with `filter(port) == true`, in order. -/
def device_handle.query_ports_filtered (env : ContextEnv)
    (filter : ibv_port_attr → Bool) : Except adverbs_error (List ibv_port_attr) :=
  match context_handle.query_ports env with
  | Except.error e => Except.error e
  | Except.ok ports => Except.ok (ports.filter (fun p => filter p))

/-- Retained device identity snapshot (`IBDeviceProxy` in the binding layer):
fields copied out of a raw entry at enumeration time. -/
structure IBDeviceProxy where
  kernel_index : Int
  guid : Nat
  node_type : Nat
  name : List Char
deriving DecidableEq, Repr

/-- The `IBDeviceProxy(const struct ibv_device *)` constructor: copies the
resolved kernel index and the identity fields. -/
def IBDeviceProxy.capture (dev : ibv_device) : IBDeviceProxy :=
  { kernel_index := ibv_get_device_index dev
    guid := dev.guid
    node_type := dev.node_type
    name := dev.name }

/-- `IBDeviceProxy::open()`: constructs a fresh `scoped_device_list`, resolves
the stored kernel index with `lookup_by_kernel_index`, throws a not-found
`std::runtime_error` when no entry matches, and otherwise constructs a
`context_handle` on the found entry. -/
def IBDeviceProxy.reopen (proxy : IBDeviceProxy) (env : VerbsEnv) :
    Except adverbs_error context_handle :=
  match (scoped_device_list.enumerate env).lookup_by_kernel_index proxy.kernel_index with
  | none => Except.error adverbs_error.not_found
  | some dev => Except.ok (context_handle.construct env dev)

/-- Events in the life of the shared owners of one underlying resource
(`std::shared_ptr` with a release deleter): copying an owner, destroying an
owner, or running a read-only query through an owner. -/
inductive owner_op where
  | copy
  | destroy
  | query
deriving DecidableEq, Repr

/-- Effect of one event on the shared-owner reference count
(`std::shared_ptr` semantics: copy increments, destruction decrements, queries
only read through `get()`). -/
def owner_step (c : Nat) : owner_op → Nat
  | owner_op.copy => c + 1
  | owner_op.destroy => c - 1
  | owner_op.query => c

/-- Number of times the event fires the deleter (`ibv_close_device` or
`ibv_free_device_list`): only the destruction of the last owner does. -/
def close_fires (c : Nat) : owner_op → Nat
  | owner_op.destroy => if c = 1 then 1 else 0
  | _ => 0

/-- Reference count after a trace of events, starting from count `c`. -/
def run_count (c : Nat) : List owner_op → Nat
  | [] => c
  | op :: ops => run_count (owner_step c op) ops

/-- Total number of deleter invocations over a trace of events. -/
def close_count (c : Nat) : List owner_op → Nat
  | [] => 0
  | op :: ops => close_fires c op + close_count (owner_step c op) ops

/-- A trace is valid when every event executes while at least one owner is
alive (one cannot copy, query through, or destroy an owner that no longer
exists). -/
def valid_trace : Nat → List owner_op → Bool
  | _, [] => true
  | c, op :: ops => decide (1 ≤ c) && valid_trace (owner_step c op) ops

/-- Device named mlx5_0. -/
def mlx0 : List Char := ['m', 'l', 'x', '5', '_', '0']

/-- Device named mlx5_1. -/
def mlx1 : List Char := ['m', 'l', 'x', '5', '_', '1']

/-- Concrete device with kernel index 0. -/
def devA : ibv_device :=
  { name := mlx0, kernel_index := some 0, guid := 170, node_type := 1 }

/-- Concrete device with kernel index 1. -/
def devB : ibv_device :=
  { name := mlx1, kernel_index := some 1, guid := 187, node_type := 1 }

/-- Concrete device whose kernel-index resolution is unsupported. -/
def devU : ibv_device :=
  { name := ['u'], kernel_index := none, guid := 7, node_type := 1 }

/-- Environment with one enumerated device whose open primitive fails. -/
def envOne : VerbsEnv :=
  { get_device_list := some [devA], open_device := fun _ => none }

/-- Environment whose enumeration primitive fails. -/
def envEnumFail : VerbsEnv :=
  { get_device_list := none, open_device := fun _ => none }

/-- Environment enumerating two devices, with a working open primitive. -/
def envTwo : VerbsEnv :=
  { get_device_list := some [devA, devB], open_device := fun d => some { dev := d } }

/-- Environment enumerating one device with unsupported index resolution. -/
def envU : VerbsEnv :=
  { get_device_list := some [devU], open_device := fun _ => none }

/-- Port attribute with InfiniBand link layer. -/
def port1 : ibv_port_attr := { link_layer := 1, lid := 10 }

/-- Port attribute with Ethernet link layer. -/
def port2 : ibv_port_attr := { link_layer := 2, lid := 20 }

/-- Device attributes reporting two physical ports. -/
def attr2 : ibv_device_attr := { phys_port_cnt := 2, max_mr_size := 1 }

/-- Query environment for a context with two ports that both answer. -/
def envPorts : ContextEnv :=
  { query_device := some attr2
    query_port := fun j => if j = 1 then some port1 else if j = 2 then some port2 else none }

/-- Predicate selecting InfiniBand-link-layer ports. -/
def is_ib : ibv_port_attr → Bool :=
  fun p => p.link_layer == 1

/-- Retained proxy whose kernel index matches no current device. -/
def proxyMiss : IBDeviceProxy :=
  { kernel_index := 99, guid := 0, node_type := 1, name := ['z'] }

/-- Owner trace: copy, query, interleaved destruction of both owners of a
second copy, ending with the last owner destroyed. -/
def trace1 : List owner_op :=
  [owner_op.copy, owner_op.query, owner_op.destroy, owner_op.copy,
   owner_op.destroy, owner_op.destroy]

/-- Owner trace: one copy, then both owners destroyed. -/
def trace2 : List owner_op :=
  [owner_op.copy, owner_op.destroy, owner_op.destroy]

/-- Directory enumerated from the two-device environment. -/
def dirTwo : scoped_device_list :=
  scoped_device_list.enumerate envTwo

/-- A successful `find?` returns the first matching element: the witness sits
at some position `i`, satisfies the predicate, and every earlier element
fails it. -/
theorem find?_first {α : Type} (p : α → Bool) (l : List α) (a : α)
    (h : l.find? p = some a) :
    ∃ i : Nat, l[i]? = some a ∧ p a = true ∧
      ∀ j : Nat, j < i → ∀ b, l[j]? = some b → p b = false := by
  induction l with
  | nil => simp at h
  | cons x xs ih =>
    by_cases hx : p x = true
    · rw [List.find?_cons_of_pos _ hx] at h
      injection h with h1
      subst h1
      exact ⟨0, by simp, hx, by intro j hj; exact absurd hj (Nat.not_lt_zero j)⟩
    · have hx' : p x = false := by simpa using hx
      rw [List.find?_cons_of_neg _ hx] at h
      obtain ⟨i, hi, hp, hfirst⟩ := ih h
      refine ⟨i + 1, by simpa using hi, hp, ?_⟩
      intro j hj b hb
      cases j with
      | zero =>
        simp at hb
        subst hb
        exact hx'
      | succ j =>
        exact hfirst j (by omega) b (by simpa using hb)

/-- Over any valid trace starting from at least one owner, the deleter fires
exactly once if the trace ends with no owner left, and never while an owner
remains. -/
theorem close_count_eq (ops : List owner_op) :
    ∀ c, 1 ≤ c → valid_trace c ops = true →
      close_count c ops = if run_count c ops = 0 then 1 else 0 := by
  induction ops with
  | nil =>
    intro c hc _
    have hne : ¬ run_count c [] = 0 := by simp [run_count]; omega
    simp [close_count, hne]
  | cons op ops ih =>
    intro c hc hv
    simp [valid_trace] at hv
    obtain ⟨hc1, hv2⟩ := hv
    cases op with
    | copy =>
      simp [close_count, run_count, close_fires, owner_step]
      exact ih (c + 1) (by omega) hv2
    | query =>
      simp [close_count, run_count, close_fires, owner_step]
      exact ih c hc hv2
    | destroy =>
      by_cases h1 : c = 1
      · subst h1
        cases ops with
        | nil => simp [close_count, run_count, close_fires, owner_step]
        | cons op2 ops2 => simp [owner_step, valid_trace] at hv2
      · have hf : close_fires c owner_op.destroy = 0 := by simp [close_fires, h1]
        simp [close_count, run_count, owner_step, hf]
        exact ih (c - 1) (by omega) hv2

/-- When every port in the remaining range answers, the per-port query loop
returns one attribute per port, in ascending port order. -/
theorem query_ports_from_ok (env : ContextEnv) :
    ∀ k s, (∀ i, i < k → (env.query_port (s + i)).isSome = true) →
      ∃ l, query_ports_from env s k = Except.ok l ∧ l.length = k ∧
        ∀ i, i < k → l[i]? = env.query_port (s + i) := by
  intro k
  induction k with
  | zero =>
    intro s _
    exact ⟨[], rfl, rfl, by intro i hi; exact absurd hi (Nat.not_lt_zero i)⟩
  | succ k ih =>
    intro s hall
    have h0 : (env.query_port (s + 0)).isSome = true := hall 0 (by omega)
    obtain ⟨p, hp⟩ : ∃ p, env.query_port s = some p := by
      cases hq : env.query_port s with
      | none => rw [Nat.add_zero, hq] at h0; simp at h0
      | some p => exact ⟨p, rfl⟩
    obtain ⟨l, hl, hlen, hidx⟩ := ih (s + 1) (by
      intro i hi
      have e : s + 1 + i = s + (i + 1) := by omega
      rw [e]
      exact hall (i + 1) (by omega))
    refine ⟨p :: l, ?_, by simp [hlen], ?_⟩
    · simp [query_ports_from, hp, hl]
    · intro i hi
      cases i with
      | zero => simp [hp]
      | succ i =>
        have e : s + (i + 1) = s + 1 + i := by omega
        rw [List.getElem?_cons_succ, e]
        exact hidx i (by omega)

/-- When port `s + j` is the first failing port of the remaining range, the
per-port query loop aborts with the port-query failure. -/
theorem query_ports_from_err (env : ContextEnv) :
    ∀ k s j, j < k → env.query_port (s + j) = none →
      (∀ i, i < j → (env.query_port (s + i)).isSome = true) →
      query_ports_from env s k = Except.error adverbs_error.query_port_failed := by
  intro k
  induction k with
  | zero =>
    intro s j hj
    exact absurd hj (Nat.not_lt_zero j)
  | succ k ih =>
    intro s j hj hfail hok
    cases j with
    | zero =>
      rw [Nat.add_zero] at hfail
      simp [query_ports_from, hfail]
    | succ j =>
      have h0 : (env.query_port (s + 0)).isSome = true := hok 0 (by omega)
      obtain ⟨p, hp⟩ : ∃ p, env.query_port s = some p := by
        cases hq : env.query_port s with
        | none => rw [Nat.add_zero, hq] at h0; simp at h0
        | some p => exact ⟨p, rfl⟩
      have hrec := ih (s + 1) j (by omega)
        (by
          have e : s + 1 + j = s + (j + 1) := by omega
          rw [e]
          exact hfail)
        (by
          intro i hi
          have e : s + 1 + i = s + (i + 1) := by omega
          rw [e]
          exact hok (i + 1) (by omega))
      simp [query_ports_from, hp, hrec]

/-- Claim C1: the code of `context_handle::query_ports(filter)` in adverbs.h
contradicts its own doc comment ("A function that returns true if the port
should be included in the result"): `remove_if` is passed the filter
un-negated, so the entries satisfying the predicate are the ones REMOVED.  On
a context with an InfiniBand port and an Ethernet port, filtering by the
InfiniBand predicate returns the Ethernet port.  The earlier `device_handle`
variant negates the predicate and behaves as documented. -/
theorem query_ports_filter_bug :
    context_handle.query_ports envPorts = Except.ok [port1, port2] ∧
    ([port1, port2] : List ibv_port_attr).filter is_ib = [port1] ∧
    context_handle.query_ports_filtered envPorts is_ib = Except.ok [port2] ∧
    device_handle.query_ports_filtered envPorts is_ib = Except.ok [port1] :=
  ⟨rfl, rfl, rfl, rfl⟩

/-- Claim C2: `query_ports()` first obtains `phys_port_cnt` from the
device-attribute query (propagating that query's failure), then queries ports
`1..phys_port_cnt` in ascending order: on success the result has exactly one
`ibv_port_attr` per port with entry `i` coming from port `i + 1`, so its
length equals `phys_port_cnt`; if some port's query fails, the whole call
aborts at the first failing port with the port-query failure and no partial
list is returned. -/
theorem query_ports_spec (env : ContextEnv) :
    (∀ e, context_handle.query_device_attr env = Except.error e →
      context_handle.query_ports env = Except.error e) ∧
    (∀ attr, context_handle.query_device_attr env = Except.ok attr →
      ((∀ i, i < attr.phys_port_cnt → (env.query_port (1 + i)).isSome = true) →
        ∃ l, context_handle.query_ports env = Except.ok l ∧
          l.length = attr.phys_port_cnt ∧
          ∀ i, i < attr.phys_port_cnt → l[i]? = env.query_port (1 + i)) ∧
      (∀ j, j < attr.phys_port_cnt → env.query_port (1 + j) = none →
        (∀ i, i < j → (env.query_port (1 + i)).isSome = true) →
        context_handle.query_ports env =
          Except.error adverbs_error.query_port_failed)) := by
  constructor
  · intro e he
    simp [context_handle.query_ports, he]
  · intro attr ha
    constructor
    · intro hall
      obtain ⟨l, hl, hlen, hidx⟩ := query_ports_from_ok env attr.phys_port_cnt 1 hall
      exact ⟨l, by simp [context_handle.query_ports, ha, hl], hlen, hidx⟩
    · intro j hj hfail hok
      have h := query_ports_from_err env attr.phys_port_cnt 1 j hj hfail hok
      simp [context_handle.query_ports, ha, h]

/-- Witness for C2 at the concrete two-port environment. -/
theorem query_ports_spec_witness :
    ∃ l, context_handle.query_ports envPorts = Except.ok l ∧
      l.length = attr2.phys_port_cnt ∧
      ∀ i, i < attr2.phys_port_cnt → l[i]? = envPorts.query_port (1 + i) :=
  ((query_ports_spec envPorts).2 attr2 rfl).1 (by decide)

/-- Claim C3 counterexample: with the open primitive reporting failure (NULL),
the `context_handle` constructor does not fail: it hands back a fully
constructed handle whose underlying resource is null, as if the open
succeeded. -/
theorem open_failure_returns_null_context :
    context_handle.construct envOne devA = { _context := none } ∧
    (context_handle.construct envOne devA).get = none :=
  ⟨rfl, rfl⟩

/-- Claim C3 amended: the constructor stores whatever the external open
primitive returns, with no error check and no failure path; when the primitive
reports an error the caller receives a context whose resource is null. -/
theorem context_construct_total (env : VerbsEnv) (device : ibv_device) :
    (context_handle.construct env device).get = env.open_device device :=
  rfl

/-- Claim C4 counterexample: when the enumeration primitive fails, directory
construction completes normally, producing an ordinary directory value -- no
`EnumerationFailure` condition is raised or recorded; the failure is only
observable through the stored null array. -/
theorem enumeration_failure_no_error :
    scoped_device_list.enumerate envEnumFail = { _size := 0, _device_list := none } ∧
    (scoped_device_list.enumerate envEnumFail).size = 0 ∧
    (scoped_device_list.enumerate envEnumFail).toList = [] :=
  ⟨rfl, rfl, rfl⟩

/-- Claim C4 amended: on enumeration failure the directory is left in a
defined empty state (`size()` is 0, iteration yields nothing, and the stored
array is null -- which distinguishes failure from a successful empty
enumeration, whose array is non-null); construction itself never signals an
error. -/
theorem enumerate_failure_state (env : VerbsEnv) :
    (env.get_device_list = none →
      (scoped_device_list.enumerate env).size = 0 ∧
      (scoped_device_list.enumerate env).toList = [] ∧
      (scoped_device_list.enumerate env).get = none) ∧
    (∀ l, env.get_device_list = some l →
      (scoped_device_list.enumerate env).get = some l ∧
      (scoped_device_list.enumerate env).size = l.length) := by
  constructor
  · intro h
    simp [scoped_device_list.enumerate, h, scoped_device_list.size,
      scoped_device_list.toList, scoped_device_list.get]
  · intro l h
    simp [scoped_device_list.enumerate, h, scoped_device_list.size,
      scoped_device_list.get]

/-- Witness for the amended C4 at the concrete failing environment. -/
theorem enumerate_failure_state_witness :
    (scoped_device_list.enumerate envEnumFail).size = 0 ∧
    (scoped_device_list.enumerate envEnumFail).toList = [] ∧
    (scoped_device_list.enumerate envEnumFail).get = none :=
  (enumerate_failure_state envEnumFail).1 rfl

/-- Claim C5 counterexample: on a directory of size 1, indexed access at
index 1 does not produce an `IndexOutOfRange` error (the source has no bounds
check and no such error exists anywhere in it); the access reads past the end
of the device array and yields no defined entry. -/
theorem index_out_of_bounds_unchecked :
    (scoped_device_list.enumerate envOne).size = 1 ∧
    (scoped_device_list.enumerate envOne).index 1 = none :=
  ⟨rfl, rfl⟩

/-- Claim C5 amended: `operator[]` performs no bounds check: for
`i < size()` it returns a view of entry `i` (the same entry iteration
visits); for `i >= size()` it raises no `IndexOutOfRange` error -- the read
past the end of the array has no defined result. -/
theorem index_no_bounds_check (env : VerbsEnv) (i : Nat) :
    (i < (scoped_device_list.enumerate env).size →
      (scoped_device_list.enumerate env).index i =
        ((scoped_device_list.enumerate env).toList)[i]? ∧
      ((scoped_device_list.enumerate env).index i).isSome = true) ∧
    ((scoped_device_list.enumerate env).size ≤ i →
      (scoped_device_list.enumerate env).index i = none) := by
  cases h : env.get_device_list with
  | none =>
    constructor
    · intro hi
      simp [scoped_device_list.enumerate, h, scoped_device_list.size] at hi
    · intro _
      simp [scoped_device_list.enumerate, h, scoped_device_list.index]
  | some l =>
    constructor
    · intro hi
      simp [scoped_device_list.enumerate, h, scoped_device_list.size] at hi
      constructor
      · simp [scoped_device_list.enumerate, h, scoped_device_list.index,
          scoped_device_list.toList, List.take_length]
      · simp [scoped_device_list.enumerate, h, scoped_device_list.index,
          List.getElem?_eq_getElem hi]
    · intro hle
      simp [scoped_device_list.enumerate, h, scoped_device_list.size] at hle
      simp [scoped_device_list.enumerate, h, scoped_device_list.index,
        List.getElem?_eq_none hle]

/-- Witness for the amended C5: in-range access is defined, out-of-range
access yields nothing. -/
theorem index_no_bounds_check_witness :
    ((scoped_device_list.enumerate envOne).index 0).isSome = true ∧
    (scoped_device_list.enumerate envOne).index 1 = none :=
  ⟨((index_no_bounds_check envOne 0).1 (by decide)).2,
   (index_no_bounds_check envOne 1).2 (by decide)⟩

/-- Claim C6: `lookup_by_name` scans the entries in enumeration order with the
64-character bounded comparison `strncmp(dev->name, name, IBV_SYSFS_NAME_MAX)`,
returning the first matching entry; when no entry matches it returns the
absent result (it has no error path at all), and a miss is exactly the case
where no entry's name matches under the bounded comparison. -/
theorem lookup_by_name_spec (env : VerbsEnv) (name : List Char) :
    (scoped_device_list.lookup_by_name (scoped_device_list.enumerate env) name = none ↔
      ∀ dev ∈ (scoped_device_list.enumerate env).toList,
        ¬ strncmp_eq dev.name name IBV_SYSFS_NAME_MAX = true) ∧
    (∀ dev,
      scoped_device_list.lookup_by_name (scoped_device_list.enumerate env) name =
        some dev →
      strncmp_eq dev.name name IBV_SYSFS_NAME_MAX = true ∧
      ∃ i : Nat, ((scoped_device_list.enumerate env).toList)[i]? = some dev ∧
        ∀ j : Nat, j < i →
          ∀ d, ((scoped_device_list.enumerate env).toList)[j]? = some d →
            strncmp_eq d.name name IBV_SYSFS_NAME_MAX = false) := by
  constructor
  · unfold scoped_device_list.lookup_by_name scoped_device_list.lookup_by_predicate
    exact List.find?_eq_none
  · intro dev h
    unfold scoped_device_list.lookup_by_name scoped_device_list.lookup_by_predicate at h
    obtain ⟨i, hi, hp, hfirst⟩ := find?_first _ _ _ h
    exact ⟨hp, i, hi, hfirst⟩

/-- Witness for C6: looking up mlx5_1 in the two-device directory returns the
second entry, with the first entry failing the bounded comparison. -/
theorem lookup_by_name_spec_witness :
    strncmp_eq devB.name mlx1 IBV_SYSFS_NAME_MAX = true ∧
    ∃ i : Nat, ((scoped_device_list.enumerate envTwo).toList)[i]? = some devB ∧
      ∀ j : Nat, j < i →
        ∀ d, ((scoped_device_list.enumerate envTwo).toList)[j]? = some d →
          strncmp_eq d.name mlx1 IBV_SYSFS_NAME_MAX = false :=
  (lookup_by_name_spec envTwo mlx1).2 devB rfl

/-- Claim C7 counterexample: an entry whose index resolution is unsupported is
reported with index `-1` by the external primitive, so
`lookup_by_kernel_index (-1)` RETURNS that entry rather than gracefully
returning not-found, contradicting the claim's universal statement. -/
theorem lookup_unsupported_minus_one :
    devU.kernel_index = none ∧
    scoped_device_list.lookup_by_kernel_index
      (scoped_device_list.enumerate envU) (-1) = some devU :=
  ⟨rfl, rfl⟩

/-- Claim C7 amended: `lookup_by_kernel_index idx` linearly scans the entries
comparing the freshly resolved index of each entry (with unsupported
resolution reported as `-1`) to `idx`, returning the first match or the absent
result; for every `idx` other than `-1` -- in particular every actual kernel
index -- an unsupported entry never matches, so the lookup skips it and
gracefully returns not-found when nothing matches; only the degenerate query
`idx = -1` returns an unsupported entry. -/
theorem lookup_by_kernel_index_spec (env : VerbsEnv) (kidx : Int) :
    (scoped_device_list.lookup_by_kernel_index (scoped_device_list.enumerate env)
        kidx =
      ((scoped_device_list.enumerate env).toList).find?
        (fun dev => ibv_get_device_index dev == kidx)) ∧
    (∀ dev, dev.kernel_index = none → kidx ≠ -1 →
      (ibv_get_device_index dev == kidx) = false) ∧
    (kidx ≠ -1 →
      (∀ dev ∈ (scoped_device_list.enumerate env).toList, dev.kernel_index = none) →
      scoped_device_list.lookup_by_kernel_index (scoped_device_list.enumerate env)
        kidx = none) := by
  refine ⟨rfl, ?_, ?_⟩
  · intro dev hk hne
    have hidx : ibv_get_device_index dev = -1 := by
      simp [ibv_get_device_index, hk]
    rw [hidx]
    exact beq_eq_false_iff_ne.mpr (fun hcontra => hne hcontra.symm)
  · intro hne hall
    unfold scoped_device_list.lookup_by_kernel_index scoped_device_list.lookup_by_predicate
    rw [List.find?_eq_none]
    intro dev hdev hcontra
    have hk := hall dev hdev
    have hidx : ibv_get_device_index dev = -1 := by
      simp [ibv_get_device_index, hk]
    rw [hidx] at hcontra
    exact hne (eq_of_beq hcontra).symm

/-- Witness for the amended C7: looking up index 5 in a directory whose only
entry has unsupported index resolution returns not-found. -/
theorem lookup_by_kernel_index_spec_witness :
    scoped_device_list.lookup_by_kernel_index
      (scoped_device_list.enumerate envU) 5 = none :=
  ((lookup_by_kernel_index_spec envU 5).2).2 (by decide) (by decide)

/-- Claim C8: `IBDeviceProxy::open()` enumerates a fresh directory, resolves
the retained kernel index through `lookup_by_kernel_index`, fails with the
distinguishable not-found error when no current entry matches (returning no
context), and otherwise opens a context on the matching entry. -/
theorem proxy_reopen_spec (env : VerbsEnv) (proxy : IBDeviceProxy) :
    ((scoped_device_list.enumerate env).lookup_by_kernel_index proxy.kernel_index =
        none →
      IBDeviceProxy.reopen proxy env = Except.error adverbs_error.not_found) ∧
    (∀ dev,
      (scoped_device_list.enumerate env).lookup_by_kernel_index proxy.kernel_index =
        some dev →
      IBDeviceProxy.reopen proxy env =
        Except.ok (context_handle.construct env dev)) := by
  constructor
  · intro h
    simp [IBDeviceProxy.reopen, h]
  · intro dev h
    simp [IBDeviceProxy.reopen, h]

/-- Witness for C8: reopening a proxy whose kernel index matches no current
device fails with not-found. -/
theorem proxy_reopen_spec_witness :
    IBDeviceProxy.reopen proxyMiss envTwo = Except.error adverbs_error.not_found :=
  (proxy_reopen_spec envTwo proxyMiss).1 rfl

/-- Claim C9: over any valid sequence of copy/destroy/query events on the
shared owners of one open context (starting from the single owner the
constructor creates), the close primitive fires exactly once, at the event
that destroys the last owner -- regardless of how many copies were made or in
what order owners are destroyed -- and never while an owner remains; query
events never change the owner count and never fire the close primitive. -/
theorem context_close_exactly_once (ops : List owner_op)
    (hv : valid_trace 1 ops = true) :
    (run_count 1 ops = 0 → close_count 1 ops = 1) ∧
    (1 ≤ run_count 1 ops → close_count 1 ops = 0) ∧
    (∀ c, close_fires c owner_op.query = 0 ∧ owner_step c owner_op.query = c) := by
  have h := close_count_eq ops 1 (by omega) hv
  refine ⟨?_, ?_, fun c => ⟨rfl, rfl⟩⟩
  · intro h0
    rw [h, if_pos h0]
  · intro h1
    rw [h, if_neg (by omega)]

/-- Witness for C9 on a concrete trace with two copies, a query, and
interleaved destruction. -/
theorem context_close_exactly_once_witness :
    valid_trace 1 trace1 = true ∧ run_count 1 trace1 = 0 ∧
    close_count 1 trace1 = 1 :=
  ⟨by decide, by decide, (context_close_exactly_once trace1 (by decide)).1 (by decide)⟩

/-- Claim C10: `scoped_device_list` is copyable; a copy is a read-only alias
observing the same `size()`, the same iterated entries, and the same
underlying array, and over any valid copy/destroy trace of the owners of the
shared array the release primitive fires exactly once, when the last copy is
destroyed, and never earlier. -/
theorem device_list_shared_copy (d : scoped_device_list) (ops : List owner_op)
    (hv : valid_trace 1 ops = true) :
    (d.copy).size = d.size ∧ (d.copy).toList = d.toList ∧ (d.copy).get = d.get ∧
    (run_count 1 ops = 0 → close_count 1 ops = 1) ∧
    (1 ≤ run_count 1 ops → close_count 1 ops = 0) := by
  have h := close_count_eq ops 1 (by omega) hv
  refine ⟨rfl, rfl, rfl, ?_, ?_⟩
  · intro h0
    rw [h, if_pos h0]
  · intro h1
    rw [h, if_neg (by omega)]

/-- Witness for C10 on the two-device directory and a concrete
copy-then-destroy-both trace. -/
theorem device_list_shared_copy_witness :
    (dirTwo.copy).size = dirTwo.size ∧ close_count 1 trace2 = 1 :=
  ⟨(device_list_shared_copy dirTwo trace2 (by decide)).1,
   ((device_list_shared_copy dirTwo trace2 (by decide)).2.2.2).1 (by decide)⟩
